import Mathlib

/-!
Verification development for the notes-app repository.

The first namespace embeds the Express/Prisma application
(`src/app/src/app.js`, request handlers for POST /notes and GET /notes) and
the database seeding routine (`src/app/prisma/seeder/index.js`).

The second namespace embeds the declarative infrastructure modules
(`src/environments/modules/cloud-run.js`, the Cloud SQL module, and the
orchestration entry point `src/environments/deploy/index.js`) as resource
declarations so that the declared shape and dependency edges can be
inspected.
-/

namespace NotesApp

/-- A persisted `Note` row, after the Prisma schema: surrogate
auto-increment `id`, two free-form text fields, and a server-assigned
creation timestamp.  The text fields are `Option String` because the API
performs no validation and a missing JSON field is persisted as
absent/NULL.  Timestamps are modelled as natural numbers. -/
structure Note where
  id : Nat
  title : Option String
  description : Option String
  createdAt : Nat
  deriving Repr, DecidableEq

/-- The database state seen by the application: the stored rows, in
insertion order, together with the value the auto-increment id sequence
will hand to the next insert.  `deleteMany` does not touch `nextId`,
mirroring the fact that a SQL `DELETE` does not reset a serial sequence. -/
structure Db where
  notes : List Note
  nextId : Nat
  deriving Repr, DecidableEq

/-- A parsed JSON request body as consumed by the POST /notes handler.
The handler destructures only `title` and `description` from `req.body`;
`extra` carries any further fields of the JSON object, which the handler
never reads. -/
structure ReqBody where
  title : Option String
  description : Option String
  extra : List (String × String)
  deriving Repr, DecidableEq

/-- The response of the POST /notes handler: an HTTP status code and the
JSON body, which carries exactly the fields `title` and `description`
(`res.status(201).json({ title: note.title, description: note.description })`). -/
structure PostResponse where
  status : Nat
  title : Option String
  description : Option String
  deriving Repr, DecidableEq

/-- Embedding of `prisma.note.create({ data: { title, description } })`:
the new row receives the next sequence id and the current time as
`createdAt`, and is appended to the store; the sequence advances. -/
def noteCreate (title description : Option String) (now : Nat) (db : Db) : Note × Db :=
  let note : Note := { id := db.nextId, title := title, description := description, createdAt := now }
  (note, { notes := db.notes ++ [note], nextId := db.nextId + 1 })

/-- Embedding of the POST /notes handler (`src/app/src/app.js`): it
destructures `title` and `description` from the body, persists via
`noteCreate`, and answers 201 with exactly those two fields. -/
def postNotes (body : ReqBody) (now : Nat) (db : Db) : Db × PostResponse :=
  let r := noteCreate body.title body.description now db
  (r.2, { status := 201, title := r.1.title, description := r.1.description })

/-- The projection applied by `findMany({ select: { id, title, description } })`:
only `id`, `title` and `description` are returned; `createdAt` is dropped. -/
structure NoteView where
  id : Nat
  title : Option String
  description : Option String
  deriving Repr, DecidableEq

/-- Project a stored row to the selected fields. -/
def toView (n : Note) : NoteView :=
  { id := n.id, title := n.title, description := n.description }

/-- Insert a row into a list kept in descending `createdAt` order
(rows with equal timestamps may end up in either relative order, which is
all the SQL `ORDER BY "createdAt" DESC` guarantees). -/
def insertDesc (n : Note) : List Note → List Note
  | [] => [n]
  | m :: ms => if m.createdAt ≤ n.createdAt then n :: m :: ms else m :: insertDesc n ms

/-- Sort rows by `createdAt` descending; embeds the
`orderBy: { createdAt: "desc" }` clause of the GET /notes handler. -/
def sortByCreatedAtDesc : List Note → List Note
  | [] => []
  | n :: ns => insertDesc n (sortByCreatedAtDesc ns)

/-- Embedding of the GET /notes handler (`src/app/src/app.js`): status 200
with every stored row, projected to `id`, `title`, `description`, ordered
by `createdAt` descending. -/
def getNotes (db : Db) : Nat × List NoteView :=
  (200, (sortByCreatedAtDesc db.notes).map toView)

/-- The fixed number of fixture rows the seeder generates
(`Array.from({ length: 5 }, ...)`). -/
def fixtureCount : Nat := 5

/-- The generated fixture data: `fixtureCount` rows whose titles and
descriptions come from the faker generator, abstracted as `gen`. -/
def mkFixtures (gen : Nat → String × String) : List (Option String × Option String) :=
  (List.range fixtureCount).map fun i => (some (gen i).1, some (gen i).2)

/-- Embedding of `prisma.note.deleteMany()`: removes every row but leaves
the id sequence untouched (a SQL `DELETE` does not reset a serial
sequence, and the seeder issues no sequence reset of its own). -/
def noteDeleteMany (db : Db) : Db :=
  { db with notes := [] }

/-- Embedding of `prisma.note.createMany({ data })`: each row is inserted
in order, receiving consecutive sequence ids and the same timestamp. -/
def noteCreateMany (data : List (Option String × Option String)) (now : Nat) (db : Db) : Db :=
  data.foldl (fun acc td => (noteCreate td.1 td.2 now acc).2) db

/-- Embedding of the seed routine (`src/app/prisma/seeder/index.js`):
it unconditionally runs `deleteMany` and then inserts the five generated
fixture rows.  The routine never reads any environment variable; the
`nodeEnv` argument is the NODE_ENV value the seed job process is started
with, passed here only to make environment-(in)dependence statable. -/
def seed (nodeEnv : String) (gen : Nat → String × String) (now : Nat) (db : Db) : Db :=
  noteCreateMany (mkFixtures gen) now (noteDeleteMany db)

/-- Consecutive ids starting at `start`. -/
def idsFrom (start len : Nat) : List Nat :=
  match len with
  | 0 => []
  | k + 1 => start :: idsFrom (start + 1) k

theorem insertDesc_perm (n : Note) (l : List Note) : (insertDesc n l).Perm (n :: l) := by
  induction l with
  | nil => simp [insertDesc]
  | cons m ms ih =>
    by_cases h : m.createdAt ≤ n.createdAt
    · simp [insertDesc, h]
    · simp only [insertDesc, if_neg h]
      exact (ih.cons m).trans (List.Perm.swap n m ms)

theorem sortByCreatedAtDesc_perm (l : List Note) : (sortByCreatedAtDesc l).Perm l := by
  induction l with
  | nil => simp [sortByCreatedAtDesc]
  | cons n ns ih => exact (insertDesc_perm n _).trans (ih.cons n)

theorem insertDesc_pairwise (n : Note) (l : List Note)
    (hl : l.Pairwise (fun a b => b.createdAt ≤ a.createdAt)) :
    (insertDesc n l).Pairwise (fun a b => b.createdAt ≤ a.createdAt) := by
  induction l with
  | nil => simp [insertDesc]
  | cons m ms ih =>
    rcases List.pairwise_cons.mp hl with ⟨hm, hms⟩
    by_cases h : m.createdAt ≤ n.createdAt
    · simp only [insertDesc, if_pos h]
      refine List.pairwise_cons.mpr ⟨?_, hl⟩
      intro x hx
      rcases List.mem_cons.mp hx with rfl | hx
      · exact h
      · exact Nat.le_trans (hm x hx) h
    · simp only [insertDesc, if_neg h]
      refine List.pairwise_cons.mpr ⟨?_, ih hms⟩
      intro x hx
      have hx' : x = n ∨ x ∈ ms := by
        have := (insertDesc_perm n ms).mem_iff.mp hx
        simpa using this
      rcases hx' with rfl | hx'
      · exact Nat.le_of_lt (Nat.lt_of_not_le h)
      · exact hm x hx'

theorem sortByCreatedAtDesc_pairwise (l : List Note) :
    (sortByCreatedAtDesc l).Pairwise (fun a b => b.createdAt ≤ a.createdAt) := by
  induction l with
  | nil => simp [sortByCreatedAtDesc]
  | cons n ns ih => exact insertDesc_pairwise n _ ih

theorem noteCreateMany_cons (td : Option String × Option String)
    (rest : List (Option String × Option String)) (now : Nat) (db : Db) :
    noteCreateMany (td :: rest) now db = noteCreateMany rest now (noteCreate td.1 td.2 now db).2 := rfl

theorem noteCreateMany_length (data : List (Option String × Option String)) (now : Nat) (db : Db) :
    (noteCreateMany data now db).notes.length = db.notes.length + data.length := by
  induction data generalizing db with
  | nil => simp [noteCreateMany]
  | cons td rest ih =>
    rw [noteCreateMany_cons, ih]
    simp [noteCreate]
    omega

theorem noteCreateMany_nextId (data : List (Option String × Option String)) (now : Nat) (db : Db) :
    (noteCreateMany data now db).nextId = db.nextId + data.length := by
  induction data generalizing db with
  | nil => simp [noteCreateMany]
  | cons td rest ih =>
    rw [noteCreateMany_cons, ih]
    simp [noteCreate]
    omega

theorem noteCreateMany_ids (data : List (Option String × Option String)) (now : Nat) (db : Db) :
    (noteCreateMany data now db).notes.map Note.id
      = db.notes.map Note.id ++ idsFrom db.nextId data.length := by
  induction data generalizing db with
  | nil => simp [noteCreateMany, idsFrom]
  | cons td rest ih =>
    rw [noteCreateMany_cons, ih]
    simp [noteCreate, idsFrom]

/-- A concrete stand-in for the faker generator, used by concrete
counterexamples and witnesses. -/
def genEx : Nat → String × String := fun _ => ("t", "d")

/-- C2 counterexample: running the seed routine with NODE_ENV = "staging"
on a database holding one prior record leaves `fixtureCount` = 5 records,
not 1 + 5 = 6 — the routine does not append in "staging"; it deletes
existing records there exactly as in every other environment. -/
theorem c2_counterexample_staging_still_deletes :
    (seed "staging" genEx 1
        { notes := [{ id := 1, title := some "a", description := some "b", createdAt := 0 }],
          nextId := 2 }).notes.length = 5
    ∧ ¬ (seed "staging" genEx 1
        { notes := [{ id := 1, title := some "a", description := some "b", createdAt := 0 }],
          nextId := 2 }).notes.length = 1 + fixtureCount := by
  constructor
  · rfl
  · decide

/-- C2 (amended): the seed routine does not branch on the deployment
environment at all — its result is identical for any two NODE_ENV values —
and in every environment (including "staging") it deletes all existing
Note records before inserting the fixtures, so the final record count is
always exactly `fixtureCount`, never prior count + fixtureCount. -/
theorem c2_seed_env_independent_always_clears (env env2 : String)
    (gen : Nat → String × String) (now : Nat) (db : Db) :
    seed env gen now db = seed env2 gen now db
    ∧ (seed env gen now db).notes.length = fixtureCount := by
  refine ⟨rfl, ?_⟩
  unfold seed
  rw [noteCreateMany_length]
  simp [noteDeleteMany, mkFixtures]

/-- C3 counterexample: seeding a database whose id sequence stands at 7
(for example after earlier inserts and deletes) gives the first inserted
fixture record id 7, not id 1 — the seed routine never resets the
auto-increment sequence. -/
theorem c3_counterexample_sequence_not_reset :
    (seed "production" genEx 0 { notes := [], nextId := 7 }).notes.map Note.id
      = [7, 8, 9, 10, 11]
    ∧ ((seed "production" genEx 0 { notes := [], nextId := 7 }).notes.map Note.id).head?
      ≠ some 1 := by
  constructor
  · rfl
  · decide

/-- C3 (amended): after the seed routine runs (in any environment — the
routine ignores the environment), starting from any prior database state,
the Note record count equals exactly `fixtureCount`; however the
auto-increment id sequence is NOT reset: the inserted records receive the
consecutive ids starting from the sequence value the prior state had
reached, and the sequence advances by `fixtureCount`. -/
theorem c3_seed_count_exact_sequence_continues (env : String)
    (gen : Nat → String × String) (now : Nat) (db : Db) :
    (seed env gen now db).notes.length = fixtureCount
    ∧ (seed env gen now db).notes.map Note.id = idsFrom db.nextId fixtureCount
    ∧ (seed env gen now db).nextId = db.nextId + fixtureCount := by
  refine ⟨?_, ?_, ?_⟩
  · unfold seed
    rw [noteCreateMany_length]
    simp [noteDeleteMany, mkFixtures]
  · unfold seed
    rw [noteCreateMany_ids]
    simp [noteDeleteMany, mkFixtures]
  · unfold seed
    rw [noteCreateMany_nextId]
    simp [noteDeleteMany, mkFixtures]

/-- C4: for every valid body carrying both text fields, POST /notes
persists a record with a server-assigned id and creation timestamp,
responds 201 with a body holding exactly the two submitted fields, and a
subsequent GET /notes includes a record with that title and description. -/
theorem c4_post_persists_echoes_and_get_includes (t d : String)
    (extra : List (String × String)) (now : Nat) (db : Db) :
    (postNotes { title := some t, description := some d, extra := extra } now db).2
      = { status := 201, title := some t, description := some d }
    ∧ (postNotes { title := some t, description := some d, extra := extra } now db).1.notes
      = db.notes ++ [{ id := db.nextId, title := some t, description := some d, createdAt := now }]
    ∧ ∃ v ∈ (getNotes (postNotes { title := some t, description := some d, extra := extra } now db).1).2,
        v.title = some t ∧ v.description = some d := by
  refine ⟨rfl, rfl, ?_⟩
  refine ⟨toView { id := db.nextId, title := some t, description := some d, createdAt := now },
    ?_, rfl, rfl⟩
  apply List.mem_map_of_mem toView
  apply (sortByCreatedAtDesc_perm _).mem_iff.mpr
  simp [postNotes, noteCreate]

/-- C5: GET /notes responds 200 with all stored records, each projected to
exactly id, title, description, in an order that is a permutation of the
store sorted by creation timestamp descending; in particular for three
records created at strictly increasing times the response is newest
first. -/
theorem c5_get_projects_and_orders_desc (db : Db) :
    (getNotes db).1 = 200
    ∧ (∃ l : List Note, l.Perm db.notes
        ∧ l.Pairwise (fun a b => b.createdAt ≤ a.createdAt)
        ∧ (getNotes db).2 = l.map toView)
    ∧ (∀ n1 n2 n3 : Note, db.notes = [n1, n2, n3] →
        n1.createdAt < n2.createdAt → n2.createdAt < n3.createdAt →
        (getNotes db).2 = [toView n3, toView n2, toView n1]) := by
  refine ⟨rfl,
    ⟨sortByCreatedAtDesc db.notes, sortByCreatedAtDesc_perm _,
      sortByCreatedAtDesc_pairwise _, rfl⟩, ?_⟩
  intro n1 n2 n3 hdb h12 h23
  have e1 : ¬ (n3.createdAt ≤ n2.createdAt) := Nat.not_le.mpr h23
  have e2 : ¬ (n3.createdAt ≤ n1.createdAt) := Nat.not_le.mpr (h12.trans h23)
  have e3 : ¬ (n2.createdAt ≤ n1.createdAt) := Nat.not_le.mpr h12
  simp [getNotes, hdb, sortByCreatedAtDesc, insertDesc, e1, e2, e3]

/-- Witness for C5: a concrete three-record database with creation times
1 < 2 < 3 is listed newest first. -/
theorem c5_witness :
    (getNotes { notes := [{ id := 1, title := some "a", description := some "x", createdAt := 1 },
                          { id := 2, title := some "b", description := some "y", createdAt := 2 },
                          { id := 3, title := some "c", description := some "z", createdAt := 3 }],
                nextId := 4 }).2
      = [{ id := 3, title := some "c", description := some "z" },
         { id := 2, title := some "b", description := some "y" },
         { id := 1, title := some "a", description := some "x" }] :=
  (c5_get_projects_and_orders_desc _).2.2
    { id := 1, title := some "a", description := some "x", createdAt := 1 }
    { id := 2, title := some "b", description := some "y", createdAt := 2 }
    { id := 3, title := some "c", description := some "z", createdAt := 3 }
    rfl (by decide) (by decide)

/-- C6: a request body missing title, description or both is accepted
unchanged: the handler still answers 201 and the stored record carries the
fields exactly as received (absent fields stored as absent). -/
theorem c6_missing_fields_still_201 (body : ReqBody) (now : Nat) (db : Db)
    (h : body.title = none ∨ body.description = none) :
    (postNotes body now db).2.status = 201
    ∧ (postNotes body now db).1.notes
      = db.notes ++ [{ id := db.nextId, title := body.title, description := body.description,
                       createdAt := now }] :=
  ⟨rfl, rfl⟩

/-- Witness for C6: a body with no title is stored as received and gets a
201 response. -/
theorem c6_witness :
    (postNotes { title := none, description := some "only", extra := [] } 5
        { notes := [], nextId := 1 }).2.status = 201
    ∧ (postNotes { title := none, description := some "only", extra := [] } 5
        { notes := [], nextId := 1 }).1.notes
      = [{ id := 1, title := none, description := some "only", createdAt := 5 }] := by
  have h := c6_missing_fields_still_201 { title := none, description := some "only", extra := [] }
    5 { notes := [], nextId := 1 } (Or.inl rfl)
  simpa using h

/-- C10: the POST /notes handler reads only the title and description
fields of the request body — two bodies agreeing on those two fields
produce identical persisted state and identical responses, whatever extra
fields either body carries. -/
theorem c10_post_ignores_extra_fields (b1 b2 : ReqBody) (now : Nat) (db : Db)
    (ht : b1.title = b2.title) (hd : b1.description = b2.description) :
    postNotes b1 now db = postNotes b2 now db := by
  simp [postNotes, noteCreate, ht, hd]

/-- Witness for C10: a body with an extra field behaves exactly like the
same body without it. -/
theorem c10_witness :
    postNotes { title := some "t", description := some "d", extra := [("role", "admin")] } 0
        { notes := [], nextId := 1 }
      = postNotes { title := some "t", description := some "d", extra := [] } 0
        { notes := [], nextId := 1 } :=
  c10_post_ignores_extra_fields _ _ 0 _ rfl rfl

end NotesApp

namespace NotesInfra

/-- The image reference produced by the build stage: a name and a
content-addressed digest. -/
structure GcpImage where
  imageName : String
  repoDigest : String
  deriving Repr, DecidableEq

/-- The Pulumi GCP provider configuration used by the entry points. -/
structure GcpProvider where
  project : String
  region : String
  zone : String
  credentials : String
  deriving Repr, DecidableEq

/-- A `gcp.projects.Service` declaration (an enabled Google Cloud API). -/
structure ProjectService where
  resourceName : String
  service : String
  disableOnDestroy : Bool
  deriving Repr, DecidableEq

/-- A `gcp.serviceaccount.Account` declaration. -/
structure ServiceAccount where
  resourceName : String
  accountId : String
  displayName : String
  dependsOn : List String
  deriving Repr, DecidableEq

/-- A `gcp.projects.IAMMember` declaration: one role grant to one member,
with its declared dependency edges (resource names it depends on). -/
structure IamMember where
  resourceName : String
  project : String
  role : String
  member : String
  dependsOn : List String
  deriving Repr, DecidableEq

/-- A `gcp.cloudrunv2.ServiceIamMember` declaration: an invocation grant
on a Cloud Run service. -/
structure ServiceIamMember where
  resourceName : String
  serviceName : String
  location : String
  role : String
  member : String
  deriving Repr, DecidableEq

/-- One environment variable entry of a container spec. -/
structure EnvVar where
  name : String
  value : String
  deriving Repr, DecidableEq

/-- A container spec as declared for the Cloud Run service and job:
image, optional command/args override, environment, volume mounts
(name, mount path) and named ports (name, container port). -/
structure ContainerSpec where
  image : String
  command : List String
  args : List String
  envs : List EnvVar
  volumeMounts : List (String × String)
  ports : List (String × Nat)
  deriving Repr, DecidableEq

/-- A `gcp.cloudrunv2.Service` declaration (the fields the repository
sets), with its declared dependency edges. -/
structure CloudRunService where
  resourceName : String
  name : String
  location : String
  ingress : String
  serviceAccount : String
  sessionAffinity : Bool
  maxInstanceRequestConcurrency : Nat
  minInstanceCount : Nat
  maxInstanceCount : Nat
  containers : List ContainerSpec
  volumes : List (String × String)
  dependsOn : List String
  deriving Repr, DecidableEq

/-- A `gcp.cloudrunv2.Job` declaration, with its declared dependency
edges. -/
structure CloudRunJob where
  resourceName : String
  name : String
  location : String
  serviceAccount : String
  containers : List ContainerSpec
  volumes : List (String × String)
  dependsOn : List String
  deriving Repr, DecidableEq

/-- The email a GCP service account receives, derived from its account id
and the owning project. -/
def serviceAccountEmail (accountId project : String) : String :=
  accountId ++ "@" ++ project ++ ".iam.gserviceaccount.com"

/-- The IAM member string `serviceAccount:<email>` used in role grants. -/
def serviceAccountMember (email : String) : String :=
  "serviceAccount:" ++ email

/-- JavaScript `s.slice(-n)`: the last `n` characters of the string (the
whole string when shorter), used to truncate the image digest for the
DIGEST environment variable. -/
def sliceFromEnd (n : Nat) (s : String) : String :=
  ⟨s.data.drop (s.data.length - n)⟩

/-- The environment variables both the service and the seed job container
declare: NODE_ENV, the truncated DIGEST change-detection value, and the
full DATABASE_URL. -/
def runtimeEnvs (env imageDigest dbUrl : String) : List EnvVar :=
  [{ name := "NODE_ENV", value := env },
   { name := "DIGEST", value := sliceFromEnd 71 imageDigest },
   { name := "DATABASE_URL", value := dbUrl }]

/-- Everything `deployPublicCloudRunWithSqlSocket` declares: the two
enabled APIs, the dedicated service account, its two role grants, the
Cloud Run service, and the invocation grant. -/
structure CloudRunDeployment where
  enableRunApi : ProjectService
  enableIamApi : ProjectService
  runServiceAccount : ServiceAccount
  saCloudSqlClient : IamMember
  saLogWriter : IamMember
  service : CloudRunService
  publicInvoker : ServiceIamMember
  deriving Repr, DecidableEq

/-- Embedding of `deployPublicCloudRunWithSqlSocket`
(`src/environments/modules/cloud-run.js`): declares the run/iam APIs, a
dedicated service account with exactly two role grants (Cloud SQL client
and log writer), the Cloud Run v2 service depending on both APIs and both
grants, and — unconditionally, for every `env` value — a
`roles/run.invoker` grant to the member `allUsers`. -/
def deployPublicCloudRunWithSqlSocket (baseName : String) (image : GcpImage)
    (env : String) (region : String) (databaseUrl : String) (connectionName : String)
    (provider : GcpProvider) : CloudRunDeployment :=
  let enableRunApi : ProjectService :=
    { resourceName := baseName ++ "-enable-run", service := "run.googleapis.com",
      disableOnDestroy := false }
  let enableIamApi : ProjectService :=
    { resourceName := baseName ++ "-enable-iam", service := "iam.googleapis.com",
      disableOnDestroy := false }
  let runServiceAccount : ServiceAccount :=
    { resourceName := baseName ++ "-sa-cloud-run",
      accountId := baseName ++ "-sa-cloud-run",
      displayName := baseName ++ " Cloud Run Service Account",
      dependsOn := [enableIamApi.resourceName] }
  let saEmail := serviceAccountEmail runServiceAccount.accountId provider.project
  let saCloudSqlClient : IamMember :=
    { resourceName := baseName ++ "-sa-cloudsql-client", project := provider.project,
      role := "roles/cloudsql.client", member := serviceAccountMember saEmail,
      dependsOn := [runServiceAccount.resourceName] }
  let saLogWriter : IamMember :=
    { resourceName := baseName ++ "-sa-log-writer", project := provider.project,
      role := "roles/logging.logWriter", member := serviceAccountMember saEmail,
      dependsOn := [runServiceAccount.resourceName] }
  let service : CloudRunService :=
    { resourceName := baseName ++ "-service",
      name := baseName ++ "-service",
      location := region,
      ingress := "INGRESS_TRAFFIC_ALL",
      serviceAccount := saEmail,
      sessionAffinity := true,
      maxInstanceRequestConcurrency := 15,
      minInstanceCount := 0,
      maxInstanceCount := 6,
      containers := [{ image := image.imageName,
                       command := [],
                       args := [],
                       envs := runtimeEnvs env image.repoDigest databaseUrl,
                       volumeMounts := [("cloudsql", "/cloudsql")],
                       ports := [("http1", 8080)] }],
      volumes := [("cloudsql", connectionName)],
      dependsOn := [enableRunApi.resourceName, enableIamApi.resourceName,
                    saCloudSqlClient.resourceName, saLogWriter.resourceName] }
  let publicInvoker : ServiceIamMember :=
    { resourceName := baseName ++ "-public-invoker",
      serviceName := service.name,
      location := region,
      role := "roles/run.invoker",
      member := "allUsers" }
  { enableRunApi := enableRunApi, enableIamApi := enableIamApi,
    runServiceAccount := runServiceAccount, saCloudSqlClient := saCloudSqlClient,
    saLogWriter := saLogWriter, service := service, publicInvoker := publicInvoker }

/-- The invoker members the module declares on the service: exactly the
one `ServiceIamMember` resource it creates. -/
def declaredInvokerMembers (d : CloudRunDeployment) : List String :=
  [d.publicInvoker.member]

/-- The project-level role grants the module declares for the service
account of the Cloud Run service: exactly the two it creates. -/
def deploymentIamMembers (d : CloudRunDeployment) : List IamMember :=
  [d.saCloudSqlClient, d.saLogWriter]

/-- Everything `createCloudRunSeedJobWithSqlSocket` declares: a separate
dedicated service account, its two role grants, and the seed job. -/
structure SeedJobDeployment where
  jobServiceAccount : ServiceAccount
  jobSaCloudSqlClient : IamMember
  jobSaLogWriter : IamMember
  job : CloudRunJob
  deriving Repr, DecidableEq

/-- Embedding of `createCloudRunSeedJobWithSqlSocket`
(`src/environments/modules/cloud-run.js`): a separate service account
with the same two role grants, and a Cloud Run v2 job overriding the
entry command to `npm run seed`, depending on both grants. -/
def createCloudRunSeedJobWithSqlSocket (baseName : String) (image : GcpImage)
    (env : String) (region : String) (databaseUrl : String) (connectionName : String)
    (provider : GcpProvider) : SeedJobDeployment :=
  let jobServiceAccount : ServiceAccount :=
    { resourceName := baseName ++ "-sa-cloud-run-seed",
      accountId := baseName ++ "-sa-cloud-run-seed",
      displayName := baseName ++ " Cloud Run seed job service account",
      dependsOn := [] }
  let saEmail := serviceAccountEmail jobServiceAccount.accountId provider.project
  let jobSaCloudSqlClient : IamMember :=
    { resourceName := baseName ++ "-seed-sa-cloudsql-client", project := provider.project,
      role := "roles/cloudsql.client", member := serviceAccountMember saEmail,
      dependsOn := [jobServiceAccount.resourceName] }
  let jobSaLogWriter : IamMember :=
    { resourceName := baseName ++ "-seed-sa-log-writer", project := provider.project,
      role := "roles/logging.logWriter", member := serviceAccountMember saEmail,
      dependsOn := [jobServiceAccount.resourceName] }
  let job : CloudRunJob :=
    { resourceName := baseName ++ "-seed-job",
      name := baseName ++ "-seed-job",
      location := region,
      serviceAccount := saEmail,
      containers := [{ image := image.imageName,
                       command := ["npm"],
                       args := ["run", "seed"],
                       envs := runtimeEnvs env image.repoDigest databaseUrl,
                       volumeMounts := [("cloudsql", "/cloudsql")],
                       ports := [] }],
      volumes := [("cloudsql", connectionName)],
      dependsOn := [jobSaCloudSqlClient.resourceName, jobSaLogWriter.resourceName] }
  { jobServiceAccount := jobServiceAccount, jobSaCloudSqlClient := jobSaCloudSqlClient,
    jobSaLogWriter := jobSaLogWriter, job := job }

/-- The project-level role grants the module declares for the seed job
service account: exactly the two it creates. -/
def seedJobIamMembers (j : SeedJobDeployment) : List IamMember :=
  [j.jobSaCloudSqlClient, j.jobSaLogWriter]

/-- The `ipConfiguration` block of a Cloud SQL instance declaration. -/
structure IpConfiguration where
  ipv4Enabled : Bool
  authorizedNetworks : List String
  deriving Repr, DecidableEq

/-- The `settings` block of a Cloud SQL instance declaration (the fields
the repository sets). -/
structure SqlSettings where
  tier : String
  availabilityType : String
  ipConfiguration : IpConfiguration
  backupEnabled : Bool
  deletionProtectionEnabled : Bool
  deriving Repr, DecidableEq

/-- A `gcp.sql.DatabaseInstance` declaration. -/
structure SqlInstance where
  resourceName : String
  project : String
  databaseVersion : String
  region : String
  settings : SqlSettings
  dependsOn : List String
  deriving Repr, DecidableEq

/-- A `gcp.sql.Database` declaration (logical database in an instance). -/
structure SqlDatabase where
  resourceName : String
  project : String
  instanceName : String
  name : String
  deriving Repr, DecidableEq

/-- A `gcp.sql.User` declaration. -/
structure SqlUser where
  resourceName : String
  project : String
  instanceName : String
  name : String
  password : String
  deriving Repr, DecidableEq

/-- The argument object of `createPublicPostgresInstanceLockedDown`.
`tier` is optional because the source applies a JavaScript
`tier || "db-f1-micro"` fallback. -/
structure SqlArgs where
  baseName : String
  project : String
  region : String
  tier : Option String
  dbName : String
  dbUser : String
  provider : GcpProvider
  deriving Repr, DecidableEq

/-- JavaScript `v || fallback` on a possibly-absent string: the fallback
is used when the value is undefined or the empty string. -/
def jsStringOr (v : Option String) (fallback : String) : String :=
  match v with
  | none => fallback
  | some s => if s = "" then fallback else s

/-- Everything `createPublicPostgresInstanceLockedDown` declares and
returns: the enabled admin API, the instance, the logical database, the
user, and the derived connection name and DATABASE_URL. -/
structure PostgresStack where
  sqlAdminApi : ProjectService
  dbInstance : SqlInstance
  database : SqlDatabase
  user : SqlUser
  connectionName : String
  databaseUrl : String
  deriving Repr, DecidableEq

/-- Embedding of `createPublicPostgresInstanceLockedDown` (the Cloud SQL
module): a POSTGRES_15 instance with a public IPv4 address but an empty
`authorizedNetworks` list, a logical database, a user with the hardcoded
password, and the Unix-socket DATABASE_URL. -/
def createPublicPostgresInstanceLockedDown (args : SqlArgs) : PostgresStack :=
  let sqlAdminApi : ProjectService :=
    { resourceName := args.baseName ++ "-enable-sqladmin-api",
      service := "sqladmin.googleapis.com", disableOnDestroy := false }
  let dbInstance : SqlInstance :=
    { resourceName := args.baseName ++ "-instance",
      project := args.project,
      databaseVersion := "POSTGRES_15",
      region := args.region,
      settings :=
        { tier := jsStringOr args.tier "db-f1-micro",
          availabilityType := "ZONAL",
          ipConfiguration := { ipv4Enabled := true, authorizedNetworks := [] },
          backupEnabled := true,
          deletionProtectionEnabled := false },
      dependsOn := [sqlAdminApi.resourceName] }
  let database : SqlDatabase :=
    { resourceName := args.baseName ++ "-db", project := args.project,
      instanceName := dbInstance.resourceName, name := args.dbName }
  let dbPassword := "TempPass123!"
  let user : SqlUser :=
    { resourceName := args.baseName ++ "-user", project := args.project,
      instanceName := dbInstance.resourceName, name := args.dbUser,
      password := dbPassword }
  let connectionName := args.project ++ ":" ++ args.region ++ ":" ++ dbInstance.resourceName
  let databaseUrl := "postgresql://" ++ args.dbUser ++ ":" ++ dbPassword ++ "@localhost/"
    ++ args.dbName ++ "?host=/cloudsql/" ++ connectionName
  { sqlAdminApi := sqlAdminApi, dbInstance := dbInstance, database := database,
    user := user, connectionName := connectionName, databaseUrl := databaseUrl }

/-- The Pulumi and GCP configuration values the deploy entry point reads
(`config.require("env")`, `gcp.project`, `gcp.projectNumber`,
`gcp.region`, and the optional `gcp.zone`). -/
structure DeployConfig where
  env : String
  project : String
  projectNumber : String
  region : String
  zone : Option String
  deriving Repr, DecidableEq

/-- The process environment variables the deploy entry point reads:
IMAGE_NAME and IMAGE_DIGEST, each possibly absent. -/
structure ProcessEnv where
  imageName : Option String
  imageDigest : Option String
  deriving Repr, DecidableEq

/-- The stack outputs (and declared resources) of a successful run of the
deploy entry point. -/
structure DeployOutputs where
  env : String
  project : String
  region : String
  zone : String
  postgres : PostgresStack
  cloudRun : CloudRunDeployment
  seedJob : SeedJobDeployment
  seedJobName : String
  deriving Repr, DecidableEq

/-- JavaScript truthiness of a possibly-absent string: `undefined` and
the empty string are falsy. -/
def truthy : Option String → Bool
  | none => false
  | some s => s ≠ ""

/-- The abort message of the deploy entry point when the image identity
variables are missing. -/
def missingImageVarsMessage : String :=
  "Missing required environment variables: IMAGE_NAME and/or IMAGE_DIGEST. Ensure they are exported from the build stage or provided in CI/CD."

/-- Embedding of the orchestration entry point
(`src/environments/deploy/index.js`): it checks the image identity
variables first and throws before anything is declared when either is
falsy; otherwise it provisions the Postgres stack, the Cloud Run service
and the seed job, and publishes the stack outputs. -/
def deployMain (cfg : DeployConfig) (penv : ProcessEnv) : Except String DeployOutputs :=
  let zone := jsStringOr cfg.zone "europe-west1-b"
  if truthy penv.imageName && truthy penv.imageDigest then
    let image : GcpImage :=
      { imageName := penv.imageName.getD "", repoDigest := penv.imageDigest.getD "" }
    let provider : GcpProvider :=
      { project := cfg.project, region := cfg.region, zone := zone,
        credentials := "../credentials/service-account-key.json" }
    let postgres := createPublicPostgresInstanceLockedDown
      { baseName := "notes-sql", project := cfg.project, region := cfg.region,
        tier := some "db-f1-micro", dbName := "notes", dbUser := "user",
        provider := provider }
    let cloudRun := deployPublicCloudRunWithSqlSocket "notes" image cfg.env cfg.region
      postgres.databaseUrl postgres.connectionName provider
    let seedJob := createCloudRunSeedJobWithSqlSocket "notes" image cfg.env cfg.region
      postgres.databaseUrl postgres.connectionName provider
    Except.ok { env := cfg.env, project := cfg.project, region := cfg.region, zone := zone,
                postgres := postgres, cloudRun := cloudRun, seedJob := seedJob,
                seedJobName := seedJob.job.name }
  else
    Except.error missingImageVarsMessage

/-- C1 counterexample: deploying with environment "development" still
declares an invocation grant, and its member is `allUsers` — contradicting
the claimed three-row table, under which "development" creates no
invocation grant at all (and "staging" grants only a scanner identity). -/
theorem c1_counterexample_development_is_public :
    declaredInvokerMembers
        (deployPublicCloudRunWithSqlSocket "notes"
          { imageName := "img", repoDigest := "sha256:abc" } "development" "europe-west1"
          "postgresql://u:p@localhost/notes?host=/cloudsql/proj:europe-west1:inst"
          "proj:europe-west1:inst"
          { project := "proj", region := "europe-west1", zone := "europe-west1-b",
            credentials := "key" })
      = ["allUsers"]
    ∧ declaredInvokerMembers
        (deployPublicCloudRunWithSqlSocket "notes"
          { imageName := "img", repoDigest := "sha256:abc" } "development" "europe-west1"
          "postgresql://u:p@localhost/notes?host=/cloudsql/proj:europe-west1:inst"
          "proj:europe-west1:inst"
          { project := "proj", region := "europe-west1", zone := "europe-west1-b",
            credentials := "key" })
      ≠ [] := by
  constructor
  · rfl
  · decide

/-- C1 (amended): the invocation-exposure policy does not depend on the
deployment environment: for every environment value (including
"development" and "staging") the module declares exactly one invoker IAM
member on the Cloud Run service, with role `roles/run.invoker` and member
`allUsers` — the service is fully public in every environment. -/
theorem c1_invoker_always_allUsers (baseName : String) (image : GcpImage)
    (env region databaseUrl connectionName : String) (provider : GcpProvider) :
    (deployPublicCloudRunWithSqlSocket baseName image env region databaseUrl
        connectionName provider).publicInvoker.role = "roles/run.invoker"
    ∧ (deployPublicCloudRunWithSqlSocket baseName image env region databaseUrl
        connectionName provider).publicInvoker.member = "allUsers"
    ∧ declaredInvokerMembers (deployPublicCloudRunWithSqlSocket baseName image env region
        databaseUrl connectionName provider) = ["allUsers"] :=
  ⟨rfl, rfl, rfl⟩

/-- C7: for every combination of input parameters, the database
provisioner declares an instance whose `authorizedNetworks` list is empty
— no input can produce a non-empty authorized public network range. -/
theorem c7_authorized_networks_always_empty (args : SqlArgs) :
    (createPublicPostgresInstanceLockedDown args).dbInstance.settings.ipConfiguration.authorizedNetworks
      = [] :=
  rfl

/-- C8: if either image identity variable is absent the orchestration
entry point aborts with the descriptive error message and declares
nothing; a successful (resource-declaring) run is only reached when both
variables are present and non-empty. -/
theorem c8_aborts_without_image_identity (cfg : DeployConfig) (penv : ProcessEnv) :
    ((penv.imageName = none ∨ penv.imageDigest = none) →
      deployMain cfg penv = Except.error missingImageVarsMessage)
    ∧ (∀ out : DeployOutputs, deployMain cfg penv = Except.ok out →
        truthy penv.imageName = true ∧ truthy penv.imageDigest = true) := by
  constructor
  · intro h
    rcases h with h | h <;> simp [deployMain, h, truthy]
  · intro out hout
    by_cases h1 : truthy penv.imageName = true ∧ truthy penv.imageDigest = true
    · exact h1
    · exfalso
      have hc : (truthy penv.imageName && truthy penv.imageDigest) = false := by
        cases hn : truthy penv.imageName <;> cases hd : truthy penv.imageDigest <;> simp_all
      simp [deployMain, hc] at hout

/-- Witness for C8: with IMAGE_NAME absent the entry point returns the
abort error. -/
theorem c8_witness :
    deployMain
        { env := "development", project := "proj", projectNumber := "123",
          region := "europe-west1", zone := none }
        { imageName := none, imageDigest := some "sha256:abc" }
      = Except.error missingImageVarsMessage :=
  (c8_aborts_without_image_identity
      { env := "development", project := "proj", projectNumber := "123",
        region := "europe-west1", zone := none }
      { imageName := none, imageDigest := some "sha256:abc" }).1 (Or.inl rfl)

/-- C9: the service and the seed job each declare their own dedicated
service account with exactly two role grants — Cloud SQL client and log
writer, both granted to that resource's own account — and each declares a
dependency edge on both of its grants, so in the declared graph neither
can be created before its permissions exist; the two accounts are
distinct. -/
theorem c9_dedicated_identities_and_grant_edges (baseName : String) (image : GcpImage)
    (env region databaseUrl connectionName : String) (provider : GcpProvider) :
    ((deploymentIamMembers (deployPublicCloudRunWithSqlSocket baseName image env region
        databaseUrl connectionName provider)).map IamMember.role
      = ["roles/cloudsql.client", "roles/logging.logWriter"])
    ∧ ((deployPublicCloudRunWithSqlSocket baseName image env region databaseUrl
        connectionName provider).saCloudSqlClient.member
      = serviceAccountMember (serviceAccountEmail
          (deployPublicCloudRunWithSqlSocket baseName image env region databaseUrl
            connectionName provider).runServiceAccount.accountId provider.project))
    ∧ ((deployPublicCloudRunWithSqlSocket baseName image env region databaseUrl
        connectionName provider).saLogWriter.member
      = serviceAccountMember (serviceAccountEmail
          (deployPublicCloudRunWithSqlSocket baseName image env region databaseUrl
            connectionName provider).runServiceAccount.accountId provider.project))
    ∧ ((deployPublicCloudRunWithSqlSocket baseName image env region databaseUrl
        connectionName provider).saCloudSqlClient.resourceName
      ∈ (deployPublicCloudRunWithSqlSocket baseName image env region databaseUrl
          connectionName provider).service.dependsOn)
    ∧ ((deployPublicCloudRunWithSqlSocket baseName image env region databaseUrl
        connectionName provider).saLogWriter.resourceName
      ∈ (deployPublicCloudRunWithSqlSocket baseName image env region databaseUrl
          connectionName provider).service.dependsOn)
    ∧ ((seedJobIamMembers (createCloudRunSeedJobWithSqlSocket baseName image env region
        databaseUrl connectionName provider)).map IamMember.role
      = ["roles/cloudsql.client", "roles/logging.logWriter"])
    ∧ ((createCloudRunSeedJobWithSqlSocket baseName image env region databaseUrl
        connectionName provider).jobSaCloudSqlClient.member
      = serviceAccountMember (serviceAccountEmail
          (createCloudRunSeedJobWithSqlSocket baseName image env region databaseUrl
            connectionName provider).jobServiceAccount.accountId provider.project))
    ∧ ((createCloudRunSeedJobWithSqlSocket baseName image env region databaseUrl
        connectionName provider).jobSaLogWriter.member
      = serviceAccountMember (serviceAccountEmail
          (createCloudRunSeedJobWithSqlSocket baseName image env region databaseUrl
            connectionName provider).jobServiceAccount.accountId provider.project))
    ∧ ((createCloudRunSeedJobWithSqlSocket baseName image env region databaseUrl
        connectionName provider).jobSaCloudSqlClient.resourceName
      ∈ (createCloudRunSeedJobWithSqlSocket baseName image env region databaseUrl
          connectionName provider).job.dependsOn)
    ∧ ((createCloudRunSeedJobWithSqlSocket baseName image env region databaseUrl
        connectionName provider).jobSaLogWriter.resourceName
      ∈ (createCloudRunSeedJobWithSqlSocket baseName image env region databaseUrl
          connectionName provider).job.dependsOn)
    ∧ (deployPublicCloudRunWithSqlSocket baseName image env region databaseUrl
        connectionName provider).runServiceAccount.accountId
      ≠ (createCloudRunSeedJobWithSqlSocket baseName image env region databaseUrl
          connectionName provider).jobServiceAccount.accountId := by
  refine ⟨rfl, rfl, rfl, ?_, ?_, rfl, rfl, rfl, ?_, ?_, ?_⟩
  · simp [deployPublicCloudRunWithSqlSocket]
  · simp [deployPublicCloudRunWithSqlSocket]
  · simp [createCloudRunSeedJobWithSqlSocket]
  · simp [createCloudRunSeedJobWithSqlSocket]
  · intro hEq
    have hlen := congrArg String.length hEq
    have h13 : ("-sa-cloud-run" : String).length = 13 := rfl
    have h18 : ("-sa-cloud-run-seed" : String).length = 18 := rfl
    simp [deployPublicCloudRunWithSqlSocket, createCloudRunSeedJobWithSqlSocket,
      String.length_append, h13, h18] at hlen

/-- Witness for C9: at concrete inputs, the service account carries
exactly the two expected role grants and the job uses a distinct
account. -/
theorem c9_witness :
    (deploymentIamMembers (deployPublicCloudRunWithSqlSocket "notes"
        { imageName := "img", repoDigest := "sha256:abc" } "production" "europe-west1"
        "url" "conn"
        { project := "proj", region := "europe-west1", zone := "europe-west1-b",
          credentials := "key" })).map IamMember.role
      = ["roles/cloudsql.client", "roles/logging.logWriter"]
    ∧ (deployPublicCloudRunWithSqlSocket "notes"
        { imageName := "img", repoDigest := "sha256:abc" } "production" "europe-west1"
        "url" "conn"
        { project := "proj", region := "europe-west1", zone := "europe-west1-b",
          credentials := "key" }).runServiceAccount.accountId
      ≠ (createCloudRunSeedJobWithSqlSocket "notes"
        { imageName := "img", repoDigest := "sha256:abc" } "production" "europe-west1"
        "url" "conn"
        { project := "proj", region := "europe-west1", zone := "europe-west1-b",
          credentials := "key" }).jobServiceAccount.accountId :=
  ⟨(c9_dedicated_identities_and_grant_edges "notes"
      { imageName := "img", repoDigest := "sha256:abc" } "production" "europe-west1"
      "url" "conn"
      { project := "proj", region := "europe-west1", zone := "europe-west1-b",
        credentials := "key" }).1,
   (c9_dedicated_identities_and_grant_edges "notes"
      { imageName := "img", repoDigest := "sha256:abc" } "production" "europe-west1"
      "url" "conn"
      { project := "proj", region := "europe-west1", zone := "europe-west1-b",
        credentials := "key" }).2.2.2.2.2.2.2.2.2.2⟩

end NotesInfra
